import Mathlib

/-!
Shallow embedding of the client/operation/lock-scope core of the mongo
repository: `src/db/client.cpp` (Client, Client::Context, CurOp,
KillCurrentOp, yield advisor, active-client count) and the mutex header
`src/unnamed/part_000` (mutex, SimpleMutex, RecursiveMutex,
StaticObserver).  External collaborators (dbHolder, dbMutex, the shard
version check, the authorization module, the script engine) are
abstracted as parameters, exactly at the call boundary the C++ code
uses them.
-/

namespace Mongo

/-! ## Yield advisor — Client::recommendedYieldMicros (client.cpp:604-639)

A registered client is summarized by the two CurOp fields the loop
reads: `isWaitingForLock()` and `getLockType()`. -/

structure WaitClient where
  waitingForLock : Bool
  lockType : Int

/-- The counting loop of client.cpp:610-619: for each registered client
whose curop is waiting for a lock, increment `w` when its lock type is
`> 0`, otherwise increment `r`.  Returns `(w, r)`. -/
def countLockWaiters : List WaitClient → Nat × Nat
  | [] => (0, 0)
  | c :: cs =>
      let (w, r) := countLockWaiters cs
      if c.waitingForLock then
        if c.lockType > 0 then (w + 1, r) else (w, r + 1)
      else (w, r)

/-- `Client::recommendedYieldMicros` (client.cpp:604-639).  `interrupted`
abstracts `*killCurrentOp.checkForInterruptNoAssert()` being nonzero
(the current operation has been flagged for interruption). -/
def recommendedYieldMicros (clients : List WaitClient) (interrupted : Bool) : Nat :=
  let (w, r) := countLockWaiters clients
  let time := r * 100 + w * 500
  let time := min time 1000000
  if interrupted then 100 else time

/-! ## Active client count — Client::getActiveClientCount (client.cpp:641-660) -/

structure ActiveClient where
  active : Bool
  lockType : Int

/-- The counting loop of client.cpp:646-657: skip inactive curops; lock
type `> 0` counts as a writer, `< 0` as a reader, `0` as neither.
Returns `(writers, readers)`. -/
def countActive : List ActiveClient → Nat × Nat
  | [] => (0, 0)
  | c :: cs =>
      let (w, r) := countActive cs
      if !c.active then (w, r)
      else if c.lockType > 0 then (w + 1, r)
      else if c.lockType < 0 then (w, r + 1)
      else (w, r)

/-- `Client::getActiveClientCount` (client.cpp:641-660): fills the two
out-parameters and returns `writers + readers`.  Result is
`(total, writers, readers)`. -/
def getActiveClientCount (clients : List ActiveClient) : Nat × Nat × Nat :=
  let (w, r) := countActive clients
  (w + r, w, r)

/-! ## Kill coordinator — KillCurrentOp::kill (client.cpp:399-418)

A CurOp is summarized by the two fields `kill` reads and writes: its
operation number and its killed flag.  A client's CurOp parent chain is
a list, innermost first: the head is the Client's current CurOp
(`curop()`), and `parent()` moves toward the tail. -/

structure COp where
  opNum : Nat
  killed : Bool
deriving DecidableEq, Repr

/-- `CurOp::kill()`: sets the killed flag. -/
def COp.markKilled (o : COp) : COp := { o with killed := true }

abbrev OpChain := List COp

/-- One client's part of `KillCurrentOp::kill` (client.cpp:404-412):
walk `k` from `curop()` along parent links looking for `opNum() == i`;
on a match, `k->kill()` and then `l->kill()` for every `l` from
`curop()` up to (and excluding) `k`.  `none` means no CurOp in this
client's chain matched. -/
def killChain (i : Nat) : OpChain → Option OpChain
  | [] => none
  | k :: rest =>
      if k.opNum = i then some (k.markKilled :: rest)
      else
        match killChain i rest with
        | some rest2 => some (k.markKilled :: rest2)
        | none => none

/-- The client loop of `KillCurrentOp::kill` (client.cpp:403-413): scan
the registered clients in order; the `found` flag stops the scan at the
first client whose chain contains a match, leaving every later client
untouched. -/
def killRegistry (i : Nat) : List OpChain → List OpChain
  | [] => []
  | c :: cs =>
      match killChain i c with
      | some c2 => c2 :: cs
      | none => c :: killRegistry i cs

/-! ## Context stack discipline (client.cpp:189-214, 320-324)

The Client state as Context construction/destruction sees it:
`_context` is the current Context, identified here by a numeric id;
`fresh` supplies ids for newly constructed Contexts. -/

structure CtxClientState where
  context : Option Nat
  fresh : Nat

/-- Context construction (every variant, e.g. client.cpp:189-198): the
new Context records `_oldContext = _client->_context` and installs
itself, `_client->_context = this`.  Returns the saved old context and
the updated client state. -/
def ctxConstruct (s : CtxClientState) : Option Nat × CtxClientState :=
  (s.context, { context := some s.fresh, fresh := s.fresh + 1 })

/-- Context destruction (client.cpp:320-324):
`_client->_context = _oldContext` (the saved pointer, possibly null). -/
def ctxDestruct (oldContext : Option Nat) (s : CtxClientState) : CtxClientState :=
  { s with context := oldContext }

/-- Well-nested programs of Context scopes on one Client.  `scope p`
constructs a Context, runs `p`, and destroys that Context on every exit
path; `raiseErr` models an error thrown mid-scope, which skips the rest
of a `seq` but still runs the destructor of every enclosing `scope`
(C++ stack unwinding runs destructors of automatic objects). -/
inductive CtxProg
  | nil
  | raiseErr
  | scope (body : CtxProg)
  | seq (p q : CtxProg)

/-- Run a program: returns the final client state and whether an
exception is propagating out of it. -/
def ctxRun : CtxProg → CtxClientState → CtxClientState × Bool
  | .nil, s => (s, false)
  | .raiseErr, s => (s, true)
  | .scope p, s =>
      let (old, s1) := ctxConstruct s
      let (s2, exc) := ctxRun p s1
      (ctxDestruct old s2, exc)
  | .seq p q, s =>
      let (s1, exc) := ctxRun p s
      if exc then (s1, true) else ctxRun q s1

/-! ## ReadContext — Client::ReadContext::ReadContext (client.cpp:219-256)

The constructor is summarized by the sequence of lock/context events it
performs and its outcome.  `dbFound` abstracts `dbHolder().get(ns,
path)` returning a database under the initial read lock; `x` is
`dbMutex.getState()` with that read lock held (`> 0` write locked,
`-1` exactly one read lock — the one just taken — and `< -1` a nested
read lock). -/

inductive LockEvent
  | takeRead
  | releaseRead
  | takeWrite
  | releaseWrite
  | buildContext
deriving DecidableEq, Repr

inductive RCOutcome
  | ok
  | userError (code : Nat)
  | fatalAssert
deriving DecidableEq, Repr

/-- `Client::ReadContext::ReadContext` (client.cpp:219-256): take a read
lock and look the database up; if found, build the Context directly.
Otherwise: if write locked (`x > 0`) build the Context under the held
locks; if exactly one read lock (`x == -1`), release it, take a write
lock, build a Context under it (instantiating the database) and destroy
it, release the write lock, re-take the read lock and rebuild the
Context; otherwise `assert(x < -1)` and `uasserted(15928, ...)`. -/
def readContext (dbFound : Bool) (x : Int) : List LockEvent × RCOutcome :=
  if dbFound then ([.takeRead, .buildContext], .ok)
  else if x > 0 then ([.takeRead, .buildContext], .ok)
  else if x = -1 then
    ([.takeRead, .releaseRead, .takeWrite, .buildContext, .releaseWrite,
      .takeRead, .buildContext], .ok)
  else if x < -1 then ([.takeRead], .userError 15928)
  else ([.takeRead], .fatalAssert)

/-! ## Context constructors, staleness, enter, auth
(client.cpp:189-214, 258-318, 428-432) -/

/-- Message operation kinds (the `_op` field read via `getOp()`). -/
inductive OpKind
  | dbUpdate
  | dbInsert
  | dbQuery
  | dbGetMore
  | dbDelete
  | dbKillCursors
  | dbMsg
deriving DecidableEq, Repr

/-- The CurOp fields touched by `CurOp::enter`, plus the operation kind
read by `checkNotStale`. -/
structure CurOpState where
  op : OpKind
  started : Bool
  active : Bool
  ns : String
  dbprofile : Nat
deriving DecidableEq, Repr

/-- `CurOp::enter` (client.cpp:428-432): `ensureStarted()`,
`setNS(context->ns())`,
`_dbprofile = context->_db ? context->_db->profile : 0`.
`ensureStarted` lives in curop-inl.h, which is not among the sources;
that part is modelled from the spec: "it marks the operation
active/started".  `dbProfile` is `some p` when the Context's `_db` is
non-null with profiling bucket `p`, `none` when `_db` is null. -/
def curOpEnter (ctxNs : String) (dbProfile : Option Nat) (o : CurOpState) : CurOpState :=
  { o with started := true, active := true, ns := ctxNs,
           dbprofile := dbProfile.getD 0 }

/-- The errors a Context constructor can raise: a
`SendStaleConfigException` carrying the namespace and message, or a
`uasserted` user error carrying code and message. -/
inductive CtxErr
  | stale (ns msg : String)
  | userAssert (code : Nat) (msg : String)
deriving DecidableEq, Repr

/-- `Client::Context::checkNotStale` (client.cpp:258-273): getMore,
update and delete are exempt (their staleness is checked elsewhere);
every other kind checks the shard version and throws a
`SendStaleConfigException` whose message carries the namespace.
`shardOk` and `errmsg` abstract `shardVersionOk(_ns, errmsg)`.
`none` means no exception. -/
def checkNotStale (op : OpKind) (ns : String) (shardOk : Bool) (errmsg : String) :
    Option CtxErr :=
  match op with
  | .dbGetMore => none
  | .dbUpdate => none
  | .dbDelete => none
  | _ =>
      if shardOk then none
      else some (.stale ns
        ("[" ++ ns ++ "] shard version not ok in Client::Context: " ++ errmsg))

/-- The Client state a Context constructor reads and writes: the current
Context pointer (`_context`, identified by a numeric id) and the current
CurOp. -/
structure CClient where
  context : Option Nat
  curOp : CurOpState
deriving DecidableEq, Repr

/-- `Client::Context::_auth` (client.cpp:308-318).  `authorized`
abstracts `_client->_ai.isAuthorizedForLock(_db->name, lockState)`.  On
failure the method first restores `_client->_context = _oldContext`,
then `uasserted(10057, ...)` with a message naming the database, the
lock type and the client address.  Returns the client state after the
call together with the raised error, if any. -/
def contextAuth (authorized : Bool) (dbName : String) (lockState : Int)
    (clientAddress : String) (oldContext : Option Nat) (c : CClient) :
    CClient × Option CtxErr :=
  if authorized then (c, none)
  else
    ({ c with context := oldContext },
     some (.userAssert 10057
       ("unauthorized db:" ++ dbName ++ " lock type:" ++ toString lockState
         ++ " client:" ++ clientAddress)))

/-- `Client::Context::Context(string ns, Database *db, bool doauth)`
(client.cpp:189-202): saves `_oldContext`, installs itself as
`_client->_context`, then if `doauth` runs `_auth()` (whose default
lock-state argument, from the header, is the current `dbMutex` state,
abstracted as `lockState`).  This variant performs no staleness check
and does not call `CurOp::enter`.  `dbName` abstracts `db->name`;
`cid` identifies the new Context. -/
def contextCtorDirect (cid : Nat) (doauth authorized : Bool) (dbName : String)
    (lockState : Int) (clientAddress : String) (c : CClient) :
    CClient × Option CtxErr :=
  let oldContext := c.context
  let c1 : CClient := { c with context := some cid }
  if doauth then contextAuth authorized dbName lockState clientAddress oldContext c1
  else (c1, none)

/-- `Client::Context::Context(const string &ns, string path, bool doauth)`
(client.cpp:204-214), whose body is `_finishInit` (client.cpp:293-306):
with the asserted-nonzero lock state, `uassert(14031, ...)` when holding
a write lock while the file allocator has failed; resolve the database
with `dbHolderUnchecked().getOrCreate` (abstracted: `dbName`,
`dbProfile`); `checkNotStale`; install as `_client->_context`; call
`_curOp->enter(this)`; then if `doauth` run `_auth(lockState)`. -/
def contextCtorPath (cid : Nat) (ns : String) (lockState : Int) (allocFailed : Bool)
    (dbName : String) (dbProfile : Nat) (shardOk : Bool) (errmsg : String)
    (doauth authorized : Bool) (clientAddress : String) (c : CClient) :
    CClient × Option CtxErr :=
  if lockState > 0 ∧ allocFailed then
    (c, some (.userAssert 14031 "Can't take a write lock while out of disk space"))
  else
    match checkNotStale c.curOp.op ns shardOk errmsg with
    | some e => (c, some e)
    | none =>
        let oldContext := c.context
        let c1 : CClient := { c with context := some cid,
                                     curOp := curOpEnter ns (some dbProfile) c.curOp }
        if doauth then contextAuth authorized dbName lockState clientAddress oldContext c1
        else (c1, none)

/-- `Client::Context::Context(const string &path, const string &ns,
Database *db, bool doauth)` (client.cpp:276-291), the variant invoked
from ReadContext: `assert(_db)`; `checkNotStale`; install as
`_client->_context`; call `_curOp->enter(this)`; then if `doauth` run
`_auth(dbMutex.getState())` (abstracted as `lockState`). -/
def contextCtorRead (cid : Nat) (ns : String) (dbName : String) (dbProfile : Nat)
    (shardOk : Bool) (errmsg : String) (doauth authorized : Bool)
    (lockState : Int) (clientAddress : String) (c : CClient) :
    CClient × Option CtxErr :=
  match checkNotStale c.curOp.op ns shardOk errmsg with
  | some e => (c, some e)
  | none =>
      let oldContext := c.context
      let c1 : CClient := { c with context := some cid,
                                   curOp := curOpEnter ns (some dbProfile) c.curOp }
      if doauth then contextAuth authorized dbName lockState clientAddress oldContext c1
      else (c1, none)

/-! ## RecursiveMutex — src/unnamed/part_000:206-228

State of one RecursiveMutex: which thread (if any) holds the underlying
SimpleMutex `m`, and the thread-local counter `n` ("nLocksByMe") of each
thread.  Threads are identified by naturals. -/

structure RMState where
  held : Option Nat
  cnt : Nat → Nat

/-- A fresh RecursiveMutex: the SimpleMutex unheld, every thread-local
counter zero. -/
def rmFresh : RMState := { held := none, cnt := fun _ => 0 }

inductive RMAction
  | lock (t : Nat)
  | unlock (t : Nat)

/-- Result of one completed scoped-lock operation: the new state, or
`blocked` when `m.lock()` cannot be acquired because the SimpleMutex is
held (the constructor has not completed), or `fatal` when the
`assert( nLocksByMe > 0 )` in the destructor fires. -/
inductive RMResult
  | ok (s : RMState)
  | blocked
  | fatal

/-- One completed `RecursiveMutex::scoped_lock` constructor or
destructor by thread `t` (src/unnamed/part_000:214-223).  Constructor:
`if( nLocksByMe++ == 0 ) rm.m.lock();` — the increment always happens,
and when the counter was 0 the operation only completes once the
SimpleMutex is acquired.  Destructor: `assert( nLocksByMe > 0 ); if(
--nLocksByMe == 0 ) rm.m.unlock();`. -/
def rmStep (s : RMState) : RMAction → RMResult
  | .lock t =>
      if s.cnt t = 0 then
        match s.held with
        | some _ => .blocked
        | none => .ok { held := some t, cnt := fun u => if u = t then 1 else s.cnt u }
      else .ok { held := s.held, cnt := fun u => if u = t then s.cnt u + 1 else s.cnt u }
  | .unlock t =>
      if s.cnt t = 0 then .fatal
      else
        if s.cnt t - 1 = 0 then
          .ok { held := none, cnt := fun u => if u = t then 0 else s.cnt u }
        else
          .ok { held := s.held, cnt := fun u => if u = t then s.cnt t - 1 else s.cnt u }

/-- Run a sequence of completed operations; a blocked or fatal step
stops the run with that result. -/
def rmRun (s : RMState) : List RMAction → RMResult
  | [] => .ok s
  | a :: rest =>
      match rmStep s a with
      | .ok s2 => rmRun s2 rest
      | .blocked => .blocked
      | .fatal => .fatal

/-- The RecursiveMutex invariant: when the SimpleMutex is unheld every
thread-local counter is zero; when thread `t` holds it, `t`'s counter is
positive and every other thread's counter is zero. -/
def RMInv (s : RMState) : Prop :=
  (s.held = none → ∀ t, s.cnt t = 0) ∧
  (∀ t, s.held = some t → 0 < s.cnt t ∧ ∀ u, u ≠ t → s.cnt u = 0)

/-! ## Shutdown safety of mutex destructors — src/unnamed/part_000:45-49,
64-69, 180-184

The observable state: the process-wide
`StaticObserver::_destroyingStatics` flag, and counters of native
resource destructions actually performed (`delete _m` on the boost mutex
inside `mongo::mutex::~mutex`, and `pthread_mutex_destroy` inside
`SimpleMutex::~SimpleMutex`). -/

structure StaticsState where
  destroyingStatics : Bool
  boostDeletes : Nat
  pthreadDestroys : Nat
deriving DecidableEq, Repr

inductive StaticsEvent
  | staticObserverDtor
  | mutexDtor
  | simpleMutexDtor
deriving DecidableEq, Repr

/-- The three destructors.  `~StaticObserver` sets `_destroyingStatics =
true` (src/unnamed/part_000:48); `mutex::~mutex` deletes the boost mutex
only when the flag is unset (src/unnamed/part_000:64-69);
`SimpleMutex::~SimpleMutex` calls `pthread_mutex_destroy` only when the
flag is unset (src/unnamed/part_000:180-184).  Nothing ever clears the
flag. -/
def staticsStep (s : StaticsState) : StaticsEvent → StaticsState
  | .staticObserverDtor => { s with destroyingStatics := true }
  | .mutexDtor =>
      if s.destroyingStatics then s
      else { s with boostDeletes := s.boostDeletes + 1 }
  | .simpleMutexDtor =>
      if s.destroyingStatics then s
      else { s with pthreadDestroys := s.pthreadDestroys + 1 }

/-- Run a sequence of destructor events. -/
def staticsRun (s : StaticsState) : List StaticsEvent → StaticsState
  | [] => s
  | e :: rest => staticsRun (staticsStep s e) rest

end Mongo

/-! ## Theorems -/

theorem Mongo.countLockWaiters_spec (cs : List Mongo.WaitClient) :
    Mongo.countLockWaiters cs =
      ((cs.filter fun c => c.waitingForLock && decide (c.lockType > 0)).length,
       (cs.filter fun c => c.waitingForLock && !decide (c.lockType > 0)).length) := by
  induction cs with
  | nil => rfl
  | cons c cs ih =>
      simp only [Mongo.countLockWaiters, ih, List.filter_cons]
      by_cases hw : c.waitingForLock <;> by_cases hl : c.lockType > 0 <;>
        simp [hw, hl]

theorem Mongo.countActive_spec (cs : List Mongo.ActiveClient) :
    Mongo.countActive cs =
      ((cs.filter fun c => c.active && decide (c.lockType > 0)).length,
       (cs.filter fun c => c.active && decide (c.lockType < 0)).length) := by
  induction cs with
  | nil => rfl
  | cons c cs ih =>
      simp only [Mongo.countActive, ih, List.filter_cons]
      by_cases ha : c.active
      · by_cases hg : c.lockType > 0
        · have hl : ¬ c.lockType < 0 := by omega
          simp [ha, hg, hl]
        · by_cases hl : c.lockType < 0 <;> simp [ha, hg, hl]
      · simp [ha]

/-- C8: `recommendedYieldMicros` with `r` waiting readers and `w` waiting
writers among the registered clients returns `min (100*r + 500*w) 1000000`
microseconds when the current operation is not flagged for interruption,
and the minimum nonzero yield of `100` microseconds when it is flagged,
regardless of the waiter counts.  A waiting client is counted as a writer
iff its lock type is `> 0`, as the loop does. -/
theorem C8_recommendedYieldMicros_formula (clients : List Mongo.WaitClient)
    (interrupted : Bool) :
    Mongo.recommendedYieldMicros clients interrupted =
      if interrupted then 100
      else
        min (100 * (clients.filter fun c =>
                c.waitingForLock && !decide (c.lockType > 0)).length
             + 500 * (clients.filter fun c =>
                c.waitingForLock && decide (c.lockType > 0)).length)
          1000000 := by
  unfold Mongo.recommendedYieldMicros
  rw [Mongo.countLockWaiters_spec]
  cases interrupted <;> simp [Nat.mul_comm]

/-- C10: `getActiveClientCount` counts a client as a writer iff its current
operation is active with lock type `> 0`, as a reader iff active with lock
type `< 0`; an active operation with lock type `0` is counted in neither,
and the returned total equals `writers + readers`. -/
theorem C10_getActiveClientCount_formula (clients : List Mongo.ActiveClient) :
    Mongo.getActiveClientCount clients =
      ((clients.filter fun c => c.active && decide (c.lockType > 0)).length
        + (clients.filter fun c => c.active && decide (c.lockType < 0)).length,
       (clients.filter fun c => c.active && decide (c.lockType > 0)).length,
       (clients.filter fun c => c.active && decide (c.lockType < 0)).length)
    ∧ ∀ c : Mongo.ActiveClient, c.active = true → c.lockType = 0 →
        ∀ cs : List Mongo.ActiveClient,
          Mongo.getActiveClientCount (c :: cs) = Mongo.getActiveClientCount cs := by
  constructor
  · unfold Mongo.getActiveClientCount
    rw [Mongo.countActive_spec]
  · intro c hact hlt cs
    have h : Mongo.countActive (c :: cs) = Mongo.countActive cs := by
      simp only [Mongo.countActive]
      simp [hact, hlt]
    unfold Mongo.getActiveClientCount
    rw [h]

theorem Mongo.killChain_not_found (i : Nat) (c : Mongo.OpChain)
    (h : ∀ op ∈ c, op.opNum ≠ i) : Mongo.killChain i c = none := by
  induction c with
  | nil => rfl
  | cons k rest ih =>
      have hk : k.opNum ≠ i := h k (List.mem_cons_self k rest)
      have hrest : Mongo.killChain i rest = none :=
        ih fun op hop => h op (List.mem_cons_of_mem k hop)
      simp [Mongo.killChain, hk, hrest]

theorem Mongo.killChain_found (i : Nat) (cpre cpost : Mongo.OpChain) (k : Mongo.COp)
    (hpre : ∀ op ∈ cpre, op.opNum ≠ i) (hk : k.opNum = i) :
    Mongo.killChain i (cpre ++ k :: cpost) =
      some (cpre.map Mongo.COp.markKilled ++ k.markKilled :: cpost) := by
  induction cpre with
  | nil => simp [Mongo.killChain, hk]
  | cons a cpre ih =>
      have ha : a.opNum ≠ i := hpre a (List.mem_cons_self a cpre)
      have hrec := ih fun op hop => hpre op (List.mem_cons_of_mem a hop)
      simp [Mongo.killChain, ha, hrec]

/-- C1: `KillCurrentOp::kill i` on a registry where the clients `pre`
have no CurOp numbered `i`, and one client's chain is
`cpre ++ k :: cpost` with `k` the first CurOp numbered `i` (`cpre` are
the CurOps from the client's current, innermost one down to the match,
exclusive): the matched CurOp `k` is marked killed, and so is every
CurOp between the client's current CurOp and the match (in particular
every CurOp strictly between them); the ancestors beyond the match
(`cpost`) keep their killed flags unchanged, and the chains of all other
clients (`pre` and `post`) are unchanged. -/
theorem C1_kill_marks_match_and_chain (i : Nat) (pre post : List Mongo.OpChain)
    (cpre cpost : Mongo.OpChain) (k : Mongo.COp)
    (hpre : ∀ c ∈ pre, ∀ op ∈ c, op.opNum ≠ i)
    (hcpre : ∀ op ∈ cpre, op.opNum ≠ i)
    (hk : k.opNum = i) :
    Mongo.killRegistry i (pre ++ (cpre ++ k :: cpost) :: post) =
      pre ++ (cpre.map Mongo.COp.markKilled ++ k.markKilled :: cpost) :: post := by
  induction pre with
  | nil =>
      simp [Mongo.killRegistry, Mongo.killChain_found i cpre cpost k hcpre hk]
  | cons c pre ih =>
      have hc : Mongo.killChain i c = none :=
        Mongo.killChain_not_found i c (hpre c (List.mem_cons_self c pre))
      have hrec := ih fun c2 hc2 => hpre c2 (List.mem_cons_of_mem c hc2)
      simp [Mongo.killRegistry, hc, hrec]

/-- C1 witness: killing op 7 in a three-client registry where the second
client's chain is `[5, 7, 9]` (innermost first) kills ops 5 and 7,
leaves ancestor 9 and the other clients untouched. -/
theorem C1_kill_witness :
    Mongo.killRegistry 7 [[⟨1, false⟩], [⟨5, false⟩, ⟨7, false⟩, ⟨9, false⟩], [⟨3, false⟩]] =
      [[⟨1, false⟩], [⟨5, true⟩, ⟨7, true⟩, ⟨9, false⟩], [⟨3, false⟩]] :=
  C1_kill_marks_match_and_chain 7 [[⟨1, false⟩]] [[⟨3, false⟩]]
    [⟨5, false⟩] [⟨9, false⟩] ⟨7, false⟩
    (by decide) (by decide) (by decide)

/-- C2: Context construction saves the Client's current Context as
`_oldContext` and installs itself as current; destruction restores the
saved context.  Hence for every well-nested program of Context scopes on
one Client — destructors running in LIFO order on every exit path,
including error unwinding — after all constructed Contexts are destroyed
the Client's current Context equals the Context that was current before
the first construction. -/
theorem C2_context_stack_discipline (p : Mongo.CtxProg) (s : Mongo.CtxClientState) :
    (Mongo.ctxRun p s).1.context = s.context := by
  induction p generalizing s with
  | nil => rfl
  | raiseErr => rfl
  | scope body ih => rfl
  | seq p q ihp ihq =>
      show (if (Mongo.ctxRun p s).2 then ((Mongo.ctxRun p s).1, true)
            else Mongo.ctxRun q (Mongo.ctxRun p s).1).1.context = s.context
      by_cases h : (Mongo.ctxRun p s).2
      · simp [h, ihp s]
      · simp [h, ihq (Mongo.ctxRun p s).1, ihp s]

/-- C3: ReadContext construction: with the database found under the read
lock a Context is built directly; not found but write locked (`x > 0`),
the Context is built under the held write lock; not found with exactly
one read lock (`x = -1`), the read lock is released, a write lock is
acquired, a Context is built under it (creating the database) and
released, then a read lock is re-acquired and the Context rebuilt; not
found under a nested read lock (`x < -1`), construction fails with user
error 15928 instead of blocking. -/
theorem C3_readContext_cases :
    (∀ x : Int, Mongo.readContext true x =
        ([.takeRead, .buildContext], .ok))
  ∧ (∀ x : Int, x > 0 → Mongo.readContext false x =
        ([.takeRead, .buildContext], .ok))
  ∧ Mongo.readContext false (-1) =
        ([.takeRead, .releaseRead, .takeWrite, .buildContext, .releaseWrite,
          .takeRead, .buildContext], .ok)
  ∧ (∀ x : Int, x < -1 → Mongo.readContext false x =
        ([.takeRead], .userError 15928)) := by
  refine ⟨fun x => rfl, fun x hx => ?_, rfl, fun x hx => ?_⟩
  · have h1 : ¬ (x = -1) := by omega
    simp [Mongo.readContext, hx, h1]
  · have h0 : ¬ (x > 0) := by omega
    have h1 : ¬ (x = -1) := by omega
    simp [Mongo.readContext, h0, h1, hx]

/-- C3 witness: the write-locked case at lock state 2 and the
nested-read case at lock state -2. -/
theorem C3_readContext_witness :
    Mongo.readContext false 2 = ([.takeRead, .buildContext], .ok)
  ∧ Mongo.readContext false (-2) = ([.takeRead], .userError 15928) :=
  ⟨C3_readContext_cases.2.1 2 (by norm_num),
   C3_readContext_cases.2.2.2 (-2) (by norm_num)⟩

/-- C4 counterexample: the claim says the staleness check runs on every
non-exempt construction through every constructor variant.  It does not:
with a non-exempt operation kind (`dbQuery`) and a stale shard version
(`checkNotStale` on the same inputs raises a `SendStaleConfigException`),
the direct `Context(string, Database*, bool)` constructor
(client.cpp:189-202) still succeeds — it never consults the shard
version. -/
theorem C4_counterexample :
    Mongo.checkNotStale .dbQuery "test.foo" false "stale"
      = some (.stale "test.foo"
          "[test.foo] shard version not ok in Client::Context: stale")
  ∧ Mongo.contextCtorDirect 1 false false "test" 1 "127.0.0.1"
      { context := none,
        curOp := { op := .dbQuery, started := false, active := false,
                   ns := "", dbprofile := 0 } }
      = ({ context := some 1,
           curOp := { op := .dbQuery, started := false, active := false,
                      ns := "", dbprofile := 0 } }, none) :=
  ⟨rfl, rfl⟩

/-- C4 amended: unless the current operation kind is exempted (getMore,
update, delete), `checkNotStale` validates the shard version and on
staleness fails with a distributed-staleness error whose message carries
the namespace; the check runs on constructions through the path-resolving
constructor (`_finishInit`) and through the ReadContext-invoked
constructor — but not through the direct `Context(string, Database*,
bool)` variant. -/
theorem C4_staleness_check_amended :
    (∀ ns shardOk errmsg,
        Mongo.checkNotStale .dbGetMore ns shardOk errmsg = none
      ∧ Mongo.checkNotStale .dbUpdate ns shardOk errmsg = none
      ∧ Mongo.checkNotStale .dbDelete ns shardOk errmsg = none)
  ∧ (∀ op ns errmsg, op ≠ .dbGetMore → op ≠ .dbUpdate → op ≠ .dbDelete →
        Mongo.checkNotStale op ns false errmsg =
          some (.stale ns
            ("[" ++ ns ++ "] shard version not ok in Client::Context: " ++ errmsg)))
  ∧ (∀ cid ns lockState allocFailed dbName dbProfile errmsg doauth authorized addr
        c e, ¬ (lockState > 0 ∧ allocFailed = true) →
        Mongo.checkNotStale (Mongo.CClient.curOp c).op ns false errmsg = some e →
        Mongo.contextCtorPath cid ns lockState allocFailed dbName dbProfile false
          errmsg doauth authorized addr c = (c, some e))
  ∧ (∀ cid ns dbName dbProfile errmsg doauth authorized lockState addr c e,
        Mongo.checkNotStale (Mongo.CClient.curOp c).op ns false errmsg = some e →
        Mongo.contextCtorRead cid ns dbName dbProfile false errmsg doauth authorized
          lockState addr c = (c, some e)) := by
  refine ⟨fun ns shardOk errmsg => ⟨rfl, rfl, rfl⟩, fun op ns errmsg h1 h2 h3 => ?_,
          fun cid ns lockState allocFailed dbName dbProfile errmsg doauth authorized
            addr c e hna hst => ?_,
          fun cid ns dbName dbProfile errmsg doauth authorized lockState addr c e
            hst => ?_⟩
  · cases op <;> simp_all [Mongo.checkNotStale]
  · simp [Mongo.contextCtorPath, hna, hst]
  · simp [Mongo.contextCtorRead, hst]

/-- C4 witness: a query against a stale namespace fails through the
path-resolving constructor with the staleness error carrying the
namespace. -/
theorem C4_staleness_witness :
    Mongo.contextCtorPath 1 "test.foo" 1 false "test" 0 false "stale" true true
      "127.0.0.1"
      { context := none,
        curOp := { op := .dbQuery, started := false, active := false,
                   ns := "", dbprofile := 0 } }
    = ({ context := none,
         curOp := { op := .dbQuery, started := false, active := false,
                    ns := "", dbprofile := 0 } },
       some (.stale "test.foo"
         "[test.foo] shard version not ok in Client::Context: stale")) :=
  C4_staleness_check_amended.2.2.1 1 "test.foo" 1 false "test" 0 "stale" true true
    "127.0.0.1" _ _ (by simp) rfl

theorem Mongo.contextAuth_fst_curOp (authorized : Bool) (dbName : String)
    (lockState : Int) (clientAddress : String) (oldContext : Option Nat)
    (c : Mongo.CClient) :
    (Mongo.contextAuth authorized dbName lockState clientAddress oldContext c).1.curOp
      = c.curOp := by
  cases authorized <;> rfl

/-- C5 counterexample: the claim says every Context constructor variant
calls `CurOp::enter`.  The direct `Context(string, Database*, bool)`
constructor (client.cpp:189-202) does not: construction succeeds and the
Client's CurOp is completely untouched — not marked started or active,
namespace and profiling bucket not recorded. -/
theorem C5_counterexample :
    Mongo.contextCtorDirect 2 false false "mydb" (-1) "10.0.0.1"
      { context := none,
        curOp := { op := .dbInsert, started := false, active := false,
                   ns := "", dbprofile := 0 } }
      = ({ context := some 2,
           curOp := { op := .dbInsert, started := false, active := false,
                      ns := "", dbprofile := 0 } }, none) := rfl

/-- C5 amended: `CurOp::enter` marks the operation started and active
(modelled from the spec for `ensureStarted`, which is outside the
sources) and records the Context's namespace and the profiling bucket of
the Context's database (0 when the Context has no database) into the
CurOp; it is called by the path-resolving constructor (`_finishInit`)
and by the ReadContext-invoked constructor whenever construction reaches
installation — but not by the direct `Context(string, Database*, bool)`
variant. -/
theorem C5_enter_amended :
    (∀ ctxNs dbProfile o,
        Mongo.curOpEnter ctxNs (some dbProfile) o =
          { o with started := true, active := true, ns := ctxNs,
                   dbprofile := dbProfile }
      ∧ Mongo.curOpEnter ctxNs none o =
          { o with started := true, active := true, ns := ctxNs,
                   dbprofile := 0 })
  ∧ (∀ cid ns lockState allocFailed dbName dbProfile shardOk errmsg doauth
        authorized addr c, ¬ (lockState > 0 ∧ allocFailed = true) →
        Mongo.checkNotStale (Mongo.CClient.curOp c).op ns shardOk errmsg = none →
        (Mongo.contextCtorPath cid ns lockState allocFailed dbName dbProfile
            shardOk errmsg doauth authorized addr c).1.curOp =
          Mongo.curOpEnter ns (some dbProfile) (Mongo.CClient.curOp c))
  ∧ (∀ cid ns dbName dbProfile shardOk errmsg doauth authorized lockState addr c,
        Mongo.checkNotStale (Mongo.CClient.curOp c).op ns shardOk errmsg = none →
        (Mongo.contextCtorRead cid ns dbName dbProfile shardOk errmsg doauth
            authorized lockState addr c).1.curOp =
          Mongo.curOpEnter ns (some dbProfile) (Mongo.CClient.curOp c)) := by
  refine ⟨fun ctxNs dbProfile o => ⟨rfl, rfl⟩,
          fun cid ns lockState allocFailed dbName dbProfile shardOk errmsg doauth
            authorized addr c hna hst => ?_,
          fun cid ns dbName dbProfile shardOk errmsg doauth authorized lockState
            addr c hst => ?_⟩
  · unfold Mongo.contextCtorPath
    rw [if_neg hna, hst]
    cases doauth
    · rfl
    · exact Mongo.contextAuth_fst_curOp authorized dbName lockState addr _ _
  · unfold Mongo.contextCtorRead
    rw [hst]
    cases doauth
    · rfl
    · exact Mongo.contextAuth_fst_curOp authorized dbName lockState addr _ _

/-- C5 witness: a getMore (stale-check exempt) construction through the
ReadContext-invoked constructor enters the CurOp: started, active,
namespace and profiling bucket recorded. -/
theorem C5_enter_witness :
    (Mongo.contextCtorRead 3 "test.foo" "test" 2 false "stale" false false 1
        "127.0.0.1"
        { context := none,
          curOp := { op := .dbGetMore, started := false, active := false,
                     ns := "", dbprofile := 0 } }).1.curOp =
      { op := .dbGetMore, started := true, active := true,
        ns := "test.foo", dbprofile := 2 } :=
  C5_enter_amended.2.2 3 "test.foo" "test" 2 false "stale" false false 1
    "127.0.0.1"
    { context := none,
      curOp := { op := .dbGetMore, started := false, active := false,
                 ns := "", dbprofile := 0 } } rfl

/-- C6: on every Context construction with authorization requested, if
the Client is not authorized then the constructor restores the Client's
current Context to the previous (possibly null) one and fails with user
error 10057 whose message names the database, the lock type and the
client address; the Client's `_context` is left exactly as before the
failed construction.  This holds through all three constructor
variants. -/
theorem C6_auth_failure_restores_context :
    (∀ cid dbName lockState addr c,
        (Mongo.contextCtorDirect cid true false dbName lockState addr c).1.context
          = Mongo.CClient.context c
      ∧ (Mongo.contextCtorDirect cid true false dbName lockState addr c).2
          = some (.userAssert 10057
              ("unauthorized db:" ++ dbName ++ " lock type:" ++ toString lockState
                ++ " client:" ++ addr)))
  ∧ (∀ cid ns lockState allocFailed dbName dbProfile shardOk errmsg addr c,
        ¬ (lockState > 0 ∧ allocFailed = true) →
        Mongo.checkNotStale (Mongo.CClient.curOp c).op ns shardOk errmsg = none →
        (Mongo.contextCtorPath cid ns lockState allocFailed dbName dbProfile
            shardOk errmsg true false addr c).1.context
          = Mongo.CClient.context c
      ∧ (Mongo.contextCtorPath cid ns lockState allocFailed dbName dbProfile
            shardOk errmsg true false addr c).2
          = some (.userAssert 10057
              ("unauthorized db:" ++ dbName ++ " lock type:" ++ toString lockState
                ++ " client:" ++ addr)))
  ∧ (∀ cid ns dbName dbProfile shardOk errmsg lockState addr c,
        Mongo.checkNotStale (Mongo.CClient.curOp c).op ns shardOk errmsg = none →
        (Mongo.contextCtorRead cid ns dbName dbProfile shardOk errmsg true false
            lockState addr c).1.context
          = Mongo.CClient.context c
      ∧ (Mongo.contextCtorRead cid ns dbName dbProfile shardOk errmsg true false
            lockState addr c).2
          = some (.userAssert 10057
              ("unauthorized db:" ++ dbName ++ " lock type:" ++ toString lockState
                ++ " client:" ++ addr))) := by
  refine ⟨fun cid dbName lockState addr c => ⟨rfl, rfl⟩,
          fun cid ns lockState allocFailed dbName dbProfile shardOk errmsg addr c
            hna hst => ?_,
          fun cid ns dbName dbProfile shardOk errmsg lockState addr c hst => ?_⟩
  · unfold Mongo.contextCtorPath
    rw [if_neg hna, hst]
    exact ⟨rfl, rfl⟩
  · unfold Mongo.contextCtorRead
    rw [hst]
    exact ⟨rfl, rfl⟩

/-- C6 witness: an unauthorized construction through the path-resolving
constructor leaves the Client's Context as it was and raises error
10057 naming database, lock type and client address. -/
theorem C6_auth_failure_witness :
    (Mongo.contextCtorPath 4 "test.foo" 1 false "test" 0 true "" true false
        "192.168.0.5"
        { context := some 9,
          curOp := { op := .dbQuery, started := false, active := false,
                     ns := "", dbprofile := 0 } }).1.context = some 9
  ∧ (Mongo.contextCtorPath 4 "test.foo" 1 false "test" 0 true "" true false
        "192.168.0.5"
        { context := some 9,
          curOp := { op := .dbQuery, started := false, active := false,
                     ns := "", dbprofile := 0 } }).2
      = some (.userAssert 10057
          "unauthorized db:test lock type:1 client:192.168.0.5") := by
  have h := C6_auth_failure_restores_context.2.1 4 "test.foo" 1 false "test" 0
    true "" "192.168.0.5"
    { context := some 9,
      curOp := { op := .dbQuery, started := false, active := false,
                 ns := "", dbprofile := 0 } }
    (by simp) rfl
  exact ⟨h.1, by rw [h.2]; rfl⟩

theorem Mongo.rminv_held_of_cnt (s : Mongo.RMState) (t : Nat)
    (hinv : Mongo.RMInv s) (h : s.cnt t ≠ 0) : s.held = some t := by
  cases hh : s.held with
  | none => exact absurd (hinv.1 hh t) h
  | some v =>
      by_cases hvt : v = t
      · exact congrArg some hvt
      · exact absurd ((hinv.2 v hh).2 t fun he => hvt he.symm) h

theorem Mongo.rmStep_preserves_inv (s : Mongo.RMState) (a : Mongo.RMAction)
    (s2 : Mongo.RMState) (hinv : Mongo.RMInv s)
    (hstep : Mongo.rmStep s a = .ok s2) : Mongo.RMInv s2 := by
  cases a with
  | lock t =>
      simp only [Mongo.rmStep] at hstep
      by_cases h0 : s.cnt t = 0
      · rw [if_pos h0] at hstep
        cases hh : s.held with
        | some u =>
            rw [hh] at hstep
            exact absurd hstep (by simp)
        | none =>
            rw [hh] at hstep
            have hs2 : Mongo.RMState.mk (some t)
                (fun u => if u = t then 1 else s.cnt u) = s2 :=
              Mongo.RMResult.ok.inj hstep
            subst hs2
            constructor
            · intro hn
              have hn2 : (some t : Option Nat) = none := hn
              exact Option.noConfusion hn2
            · intro v hv
              have hv2 : (some t : Option Nat) = some v := hv
              have hvt : v = t := (Option.some.inj hv2).symm
              subst hvt
              constructor
              · show 0 < if v = v then 1 else s.cnt v
                simp
              · intro u hu
                show (if u = v then 1 else s.cnt u) = 0
                simp [hu, hinv.1 hh u]
      · rw [if_neg h0] at hstep
        have hheld : s.held = some t := Mongo.rminv_held_of_cnt s t hinv h0
        have hs2 : Mongo.RMState.mk s.held
            (fun u => if u = t then s.cnt u + 1 else s.cnt u) = s2 :=
          Mongo.RMResult.ok.inj hstep
        subst hs2
        constructor
        · intro hn
          have hn2 : s.held = none := hn
          rw [hheld] at hn2
          exact Option.noConfusion hn2
        · intro v hv
          have hv2 : s.held = some v := hv
          rw [hheld] at hv2
          have hvt : v = t := (Option.some.inj hv2).symm
          subst hvt
          constructor
          · show 0 < if v = v then s.cnt v + 1 else s.cnt v
            simp
          · intro u hu
            show (if u = v then s.cnt u + 1 else s.cnt u) = 0
            simp [hu, (hinv.2 v hheld).2 u hu]
  | unlock t =>
      simp only [Mongo.rmStep] at hstep
      by_cases h0 : s.cnt t = 0
      · rw [if_pos h0] at hstep
        exact absurd hstep (by simp)
      · rw [if_neg h0] at hstep
        have hheld : s.held = some t := Mongo.rminv_held_of_cnt s t hinv h0
        have hothers : ∀ u, u ≠ t → s.cnt u = 0 := (hinv.2 t hheld).2
        by_cases hc : s.cnt t - 1 = 0
        · rw [if_pos hc] at hstep
          have hs2 : Mongo.RMState.mk none
              (fun u => if u = t then 0 else s.cnt u) = s2 :=
            Mongo.RMResult.ok.inj hstep
          subst hs2
          constructor
          · intro _ u
            show (if u = t then 0 else s.cnt u) = 0
            by_cases hu : u = t
            · simp [hu]
            · simp [hu, hothers u hu]
          · intro v hv
            have hv2 : (none : Option Nat) = some v := hv
            exact Option.noConfusion hv2
        · rw [if_neg hc] at hstep
          have hs2 : Mongo.RMState.mk s.held
              (fun u => if u = t then s.cnt t - 1 else s.cnt u) = s2 :=
            Mongo.RMResult.ok.inj hstep
          subst hs2
          constructor
          · intro hn
            have hn2 : s.held = none := hn
            rw [hheld] at hn2
            exact Option.noConfusion hn2
          · intro v hv
            have hv2 : s.held = some v := hv
            rw [hheld] at hv2
            have hvt : v = t := (Option.some.inj hv2).symm
            subst hvt
            constructor
            · show 0 < if v = v then s.cnt v - 1 else s.cnt v
              simp only [if_pos rfl]
              exact Nat.pos_of_ne_zero hc
            · intro u hu
              show (if u = v then s.cnt v - 1 else s.cnt u) = 0
              simp [hu, hothers u hu]

/-- C7: (1) under the invariant, the underlying SimpleMutex is held iff
some thread's counter is positive; (2) the invariant holds for a fresh
RecursiveMutex and is preserved by every completed scoped-lock
construction and destruction; (3) a thread that acquires the scoped lock
twice and releases it twice leaves the mutex fully unlocked — counter 0,
SimpleMutex unheld — and another thread can then acquire it; (4)
releasing more times than acquired hits the destructor's fatal
`assert( nLocksByMe > 0 )`. -/
theorem C7_recursiveMutex :
    (∀ s : Mongo.RMState, Mongo.RMInv s →
        ((∃ t, s.held = some t) ↔ ∃ t, 0 < s.cnt t))
  ∧ (∀ (s : Mongo.RMState) (a : Mongo.RMAction) (s2 : Mongo.RMState),
        Mongo.RMInv s → Mongo.rmStep s a = .ok s2 → Mongo.RMInv s2)
  ∧ Mongo.RMInv Mongo.rmFresh
  ∧ (∃ s : Mongo.RMState,
        Mongo.rmRun Mongo.rmFresh [.lock 0, .lock 0, .unlock 0, .unlock 0] = .ok s
      ∧ s.held = none ∧ s.cnt 0 = 0
      ∧ ∃ s2, Mongo.rmStep s (.lock 1) = .ok s2 ∧ s2.held = some 1)
  ∧ Mongo.rmRun Mongo.rmFresh [.lock 0, .unlock 0, .unlock 0] = .fatal := by
  refine ⟨fun s hinv => ?_, Mongo.rmStep_preserves_inv,
          ⟨fun _ t => rfl, fun t h => Option.noConfusion h⟩,
          ⟨_, rfl, rfl, rfl, _, rfl, rfl⟩, rfl⟩
  constructor
  · rintro ⟨t, ht⟩
    exact ⟨t, (hinv.2 t ht).1⟩
  · rintro ⟨t, ht⟩
    exact ⟨t, Mongo.rminv_held_of_cnt s t hinv (by omega)⟩

/-- C7 witness: a single completed lock by thread 0 on a fresh
RecursiveMutex preserves the invariant. -/
theorem C7_recursiveMutex_witness :
    Mongo.RMInv { held := some 0, cnt := fun u => if u = 0 then 1 else 0 } :=
  C7_recursiveMutex.2.1 Mongo.rmFresh (.lock 0)
    { held := some 0, cnt := fun u => if u = 0 then 1 else 0 }
    ⟨fun _ _ => rfl, fun _ h => Option.noConfusion h⟩ rfl

theorem Mongo.staticsStep_keeps_flag (s : Mongo.StaticsState) (e : Mongo.StaticsEvent)
    (hs : s.destroyingStatics = true) :
    (Mongo.staticsStep s e).destroyingStatics = true := by
  cases e <;> simp [Mongo.staticsStep, hs]

/-- C9: a mutex or SimpleMutex destructor that runs while the
destroying-statics flag is set performs no native-resource destruction
(the boost mutex is not deleted, `pthread_mutex_destroy` is not called),
and this persists over any further sequence of destructor events; the
flag becomes set only through the destruction of the StaticObserver
sentinel, which always sets it, and no event ever unsets it. -/
theorem C9_mutex_shutdown_safety :
    (∀ s : Mongo.StaticsState, s.destroyingStatics = true →
        (Mongo.staticsStep s .mutexDtor).boostDeletes = s.boostDeletes
      ∧ (Mongo.staticsStep s .simpleMutexDtor).pthreadDestroys = s.pthreadDestroys)
  ∧ (∀ (s : Mongo.StaticsState) (evs : List Mongo.StaticsEvent),
        s.destroyingStatics = true →
        (Mongo.staticsRun s evs).boostDeletes = s.boostDeletes
      ∧ (Mongo.staticsRun s evs).pthreadDestroys = s.pthreadDestroys)
  ∧ (∀ (s : Mongo.StaticsState) (e : Mongo.StaticsEvent),
        s.destroyingStatics = true →
        (Mongo.staticsStep s e).destroyingStatics = true)
  ∧ (∀ (s : Mongo.StaticsState) (e : Mongo.StaticsEvent),
        (Mongo.staticsStep s e).destroyingStatics = true →
        s.destroyingStatics = true ∨ e = .staticObserverDtor)
  ∧ (∀ s : Mongo.StaticsState,
        (Mongo.staticsStep s .staticObserverDtor).destroyingStatics = true) := by
  refine ⟨fun s hs => ⟨by simp [Mongo.staticsStep, hs], by simp [Mongo.staticsStep, hs]⟩,
          fun s evs => ?_, Mongo.staticsStep_keeps_flag,
          fun s e h => ?_, fun s => rfl⟩
  · induction evs generalizing s with
    | nil => intro _ ; exact ⟨rfl, rfl⟩
    | cons e rest ih =>
        intro hs
        have hflag := Mongo.staticsStep_keeps_flag s e hs
        have hkeep : (Mongo.staticsStep s e).boostDeletes = s.boostDeletes
            ∧ (Mongo.staticsStep s e).pthreadDestroys = s.pthreadDestroys := by
          cases e <;> simp [Mongo.staticsStep, hs]
        have hrest := ih (Mongo.staticsStep s e) hflag
        simp only [Mongo.staticsRun]
        exact ⟨hrest.1.trans hkeep.1, hrest.2.trans hkeep.2⟩
  · cases e with
    | staticObserverDtor => exact Or.inr rfl
    | mutexDtor =>
        refine Or.inl ?_
        by_cases hd : s.destroyingStatics = true
        · exact hd
        · simp only [Bool.not_eq_true] at hd
          simp [Mongo.staticsStep, hd] at h
    | simpleMutexDtor =>
        refine Or.inl ?_
        by_cases hd : s.destroyingStatics = true
        · exact hd
        · simp only [Bool.not_eq_true] at hd
          simp [Mongo.staticsStep, hd] at h

/-- C9 witness: with the flag set, running a mutex destructor, a
SimpleMutex destructor and another sentinel destruction performs no
native destruction and leaves the flag set. -/
theorem C9_mutex_shutdown_witness :
    (Mongo.staticsRun { destroyingStatics := true, boostDeletes := 3,
                        pthreadDestroys := 5 }
        [.mutexDtor, .simpleMutexDtor, .staticObserverDtor]).boostDeletes = 3
  ∧ (Mongo.staticsRun { destroyingStatics := true, boostDeletes := 3,
                        pthreadDestroys := 5 }
        [.mutexDtor, .simpleMutexDtor, .staticObserverDtor]).pthreadDestroys = 5 :=
  C9_mutex_shutdown_safety.2.1
    { destroyingStatics := true, boostDeletes := 3, pthreadDestroys := 5 }
    [.mutexDtor, .simpleMutexDtor, .staticObserverDtor] rfl

/-- C10 witness: an active client holding no lock (lock type 0)
contributes to neither count nor to the total. -/
theorem C10_getActiveClientCount_witness :
    Mongo.getActiveClientCount [{ active := true, lockType := 0 }] =
      Mongo.getActiveClientCount [] :=
  (C10_getActiveClientCount_formula []).2 { active := true, lockType := 0 } rfl rfl []
